import Mathlib

/-!
Verification development for the UnderControl device-control hub.

The definitions below are a shallow embedding of the adapter plugin
framework found in `under_control/adapters/__init__.py`,
`under_control/adapters/adapter_kasa.py` and
`under_control/adapters/adapter_lgtv.py`.  Pure Python functions become
Lean functions; methods that mutate adapter state become explicit
state-passing functions; Python exceptions become `Except` / explicit
outcome constructors.  External collaborators (the FastAPI router, the
`kasa` and `pywebostv` device libraries, the TOML configuration file)
are modelled at the call boundary: their results are passed in as
parameters, and the calls an adapter makes to them are recorded in the
returned value.
-/

/-! ## Python string primitives

Helpers mirroring the Python string operations the adapters use:
substring test (`in`), `str.lower()`, `str.replace("Adapter", "")`,
`str.split(',')` and `int(...)` on decimal strings. -/

/-- Does `needle` occur at the start of `hay`?  (Helper for the Python
substring operator.) -/
def beginsWith : List Char → List Char → Bool
  | [], _ => true
  | _ :: _, [] => false
  | a :: as, b :: bs => a == b && beginsWith as bs

/-- Python's `needle in hay` substring test on character lists. -/
def listContainsSub : List Char → List Char → Bool
  | needle, [] => needle.isEmpty
  | needle, c :: rest => beginsWith needle (c :: rest) || listContainsSub needle rest

/-- Python's `needle in hay` substring test on strings. -/
def strInStr (needle hay : String) : Bool :=
  listContainsSub needle.data hay.data

/-- Python's `str.lower()` (ASCII case folding, as used on the
identifier and title strings in this code base). -/
def lowerStr (s : String) : String :=
  ⟨s.data.map Char.toLower⟩

/-- Fuel-driven worker for `str.replace("Adapter", "")`: removes every
non-overlapping occurrence of `Adapter`, scanning left to right. -/
def stripAdapterAux : Nat → List Char → List Char
  | 0, s => s
  | _ + 1, [] => []
  | fuel + 1, c :: rest =>
    if beginsWith "Adapter".data (c :: rest) then stripAdapterAux fuel ((c :: rest).drop 7)
    else c :: stripAdapterAux fuel rest

/-- Python's `cls_name.replace("Adapter", "")`: every occurrence of the
substring `Adapter` is removed (`str.replace` is not suffix-only).
The fuel `s.data.length` suffices because each step consumes at least
one character. -/
def pyReplaceAdapter (s : String) : String :=
  ⟨stripAdapterAux s.data.length s.data⟩

/-- Splits a character list on `,` (Python's `str.split(',')`);
`cur` accumulates the current piece in reverse. -/
def splitCommaAux : List Char → List Char → List (List Char)
  | [], cur => [cur.reverse]
  | c :: rest, cur =>
    if c = ',' then cur.reverse :: splitCommaAux rest []
    else splitCommaAux rest (c :: cur)

/-- Decimal value of a digit string (Python's `int(...)` on the digit
pieces produced by the colour-spec pattern). -/
def parseNat (cs : List Char) : Nat :=
  cs.foldl (fun n c => n * 10 + (c.toNat - 48)) 0

/-! ## Python `dict` model

The registries and session stores in the source are Python `dict`s.
A `dict` is modelled as an association list with insert-or-overwrite
assignment, which preserves Python's insertion-order semantics. -/

/-- `d[k] = v` on a Python dict: overwrite the binding in place if the
key is present, otherwise append it. -/
def dictInsert {α : Type} : List (String × α) → String → α → List (String × α)
  | [], k, v => [(k, v)]
  | (k', v') :: rest, k, v =>
    if k' = k then (k, v) :: rest else (k', v') :: dictInsert rest k v

/-- Decidable equality of `Except` results (used to evaluate the
models on concrete inputs). -/
instance {ε α : Type} [DecidableEq ε] [DecidableEq α] : DecidableEq (Except ε α) :=
  fun x y =>
    match x, y with
    | Except.ok a, Except.ok b =>
      if h : a = b then isTrue (by rw [h])
      else isFalse (fun hc => h (by injection hc))
    | Except.error a, Except.error b =>
      if h : a = b then isTrue (by rw [h])
      else isFalse (fun hc => h (by injection hc))
    | Except.ok _, Except.error _ => isFalse (fun hc => Except.noConfusion hc)
    | Except.error _, Except.ok _ => isFalse (fun hc => Except.noConfusion hc)

/-! ## Adapter registry (`under_control/adapters/__init__.py`)

`Adapter.__init__` stores the configuration slice on the new instance,
registers the adapter's endpoints against the FastAPI router, and only
then checks the per-class instance-count guard, raising when an
instance of the same class already exists.  The router is modelled by
the log of endpoint registrations it has received (one entry per
adapter class that registered); the per-class instance counters
(`type(self)._instance_count`) are a map from class name to count. -/

/-- Error raised by `Adapter.__init__` when a second instance of the
same adapter class is constructed (spec taxonomy: `AlreadyInstantiated`;
the Python code raises `Exception("... has already been loaded ...")`). -/
inductive AdapterError where
  | alreadyInstantiated
deriving DecidableEq, Repr

/-- The successfully constructed adapter object: its class and the
configuration slice stored by `self.cfg = cfg`. -/
structure AdapterInstance where
  cls : String
  cfg : String
deriving DecidableEq, Repr

/-- Process-wide registry state: the router's endpoint-registration log
and the per-class instance counters. -/
structure RegistryState where
  endpoints : List String
  counts : List (String × Nat)
deriving DecidableEq, Repr

/-- `type(self)._instance_count` for class `cls` (0 when the class has
never incremented its own counter). -/
def instanceCount (st : RegistryState) (cls : String) : Nat :=
  (st.counts.lookup cls).getD 0

/-- `Adapter.__init__(self, cfg, app)`: stores `cfg` on the instance,
registers the endpoints, then evaluates the single-instance guard.
Returns the state after the call (mutations persist even when the
guard raises, exactly as in Python) together with either the
constructed instance or the raised error. -/
def adapter_init (st : RegistryState) (cls cfg : String) :
    RegistryState × Except AdapterError AdapterInstance :=
  let inst : AdapterInstance := { cls := cls, cfg := cfg }
  let st1 : RegistryState := { st with endpoints := st.endpoints ++ [cls] }
  if 0 < instanceCount st1 cls then
    (st1, Except.error AdapterError.alreadyInstantiated)
  else
    ({ st1 with counts := dictInsert st1.counts cls (instanceCount st1 cls + 1) },
     Except.ok inst)

/-- `create` computes `cls_name.replace("Adapter", "").lower()` as the
key of the instance table. -/
def adapter_name (cls_name : String) : String :=
  lowerStr (pyReplaceAdapter cls_name)

/-- The adapter classes `find_adapters` registers for this repository:
the files matching `adapter_*.py` are `adapter_kasa.py` and
`adapter_lgtv.py`, whose only classes named with the `Adapter` suffix
(and different from the base class name `Adapter`) are `KasaAdapter`
and `LGTVAdapter`. -/
def registeredAdapterNames : List String :=
  ["KasaAdapter", "LGTVAdapter"]

/-- The `_created_adapters` table built by `create`: each instance is
stored under `adapter_name` of its class name.  The instance object is
represented by its class name. -/
def created_adapters : List (String × String) :=
  registeredAdapterNames.foldl (fun acc cls => dictInsert acc (adapter_name cls) cls) []

/-- `adapters.get(adapter_name)`: dictionary lookup in
`_created_adapters` (raises `KeyError` when absent, i.e. `none`). -/
def adapters_get (name : String) : Option String :=
  created_adapters.lookup name

/-- Built from the claim's words, for comparison with `adapter_name`:
strip the final `Adapter` suffix (only), then lower-case the rest. -/
def stripSuffixSpec (s : String) : String :=
  if 7 ≤ s.data.length && s.data.drop (s.data.length - 7) == "Adapter".data then
    ⟨s.data.take (s.data.length - 7)⟩
  else s

/-! ## Kasa adapter (`under_control/adapters/adapter_kasa.py`)

Device objects from the `kasa` library are modelled by the capability
flags the handlers consult; the device calls a handler performs appear
in the returned outcome. -/

/-- A `kasa` library device as seen by the handlers. -/
structure KasaDevice where
  is_color : Bool
  is_dimmable : Bool
  is_variable_color_temp : Bool
deriving DecidableEq, Repr

/-- Per-adapter state of `KasaAdapter`: the `_devices` store indexed by
alias. -/
structure KasaState where
  devices : List (String × KasaDevice)
deriving DecidableEq, Repr

/-- `KasaAdapter.shutdown(self)`: the method body is `pass`. -/
def KasaAdapter.shutdown (st : KasaState) : KasaState :=
  st

/-- Is `p` one to three characters long and all digits?  One component
of the FastAPI path regex for the colour spec. -/
def colourPieceOk (p : List Char) : Bool :=
  decide (1 ≤ p.length) && decide (p.length ≤ 3) && p.all Char.isDigit

/-- The strict FastAPI path-parameter pattern for `colour_spec`
(three 1-to-3-digit groups separated by commas, anchored at both
ends). -/
def colourSpecMatches (s : String) : Bool :=
  match splitCommaAux s.data [] with
  | [a, b, c] => colourPieceOk a && colourPieceOk b && colourPieceOk c
  | _ => false

/-- Observable outcome of a request to
`PUT /kasa/{alias}/colour/{colour_spec}`. -/
inductive ColourOutcome where
  /-- The path parameter failed the router's pattern validation; the
  handler never runs and no device call is made (4xx validation
  response). -/
  | routerRejected
  /-- Handler returned 400 with a message body; no device call. -/
  | deviceNotFound (msg : String)
  /-- Handler returned 400 with a message body; no device call. -/
  | notColourCapable (msg : String)
  /-- `dev.set_hsv(h, s, v)` was invoked with these values and the
  handler returned 200. -/
  | hsvSet (h s v : Nat)
deriving DecidableEq, Repr

/-- `set_bulb_colour`: router-side regex validation of `colour_spec`,
then the handler body: device lookup, `is_color` check, and
`h, s, v = [int(i) for i in colour_spec.split(',')]` followed by
`dev.set_hsv(h, s, v)`.  No bound check is performed on `h`, `s`, `v`
beyond the 1-to-3-digit pattern.  (The final catch-all branch is dead:
the pattern guarantees exactly three pieces.) -/
def set_bulb_colour (devices : List (String × KasaDevice)) (aliasName colour_spec : String) :
    ColourOutcome :=
  if !(colourSpecMatches colour_spec) then ColourOutcome.routerRejected
  else
    match devices.lookup aliasName with
    | none => ColourOutcome.deviceNotFound ("Could not find device [" ++ aliasName ++ "]")
    | some dev =>
      if !dev.is_color then
        ColourOutcome.notColourCapable ("Cannot set the colour of [" ++ aliasName ++ "]")
      else
        match splitCommaAux colour_spec.data [] with
        | [h, s, v] => ColourOutcome.hsvSet (parseNat h) (parseNat s) (parseNat v)
        | _ => ColourOutcome.routerRejected

/-! ## LG TV adapter (`under_control/adapters/adapter_lgtv.py`)

The command enums (`AutoName` subclasses: each value is the lower-case
of the member name), the `LGTVCommander` dispatch wrapper, the adapter
state and its endpoint handlers. -/

/-- `MediaCommand` enum. -/
inductive MediaCommand where
  | volume_up | volume_down | get_volume | set_volume | mute
  | play | pause | stop | rewind | fast_forward
deriving DecidableEq, Repr

/-- `AppCommand` enum. -/
inductive AppCommand where
  | launch | list_apps | get_current
deriving DecidableEq, Repr

/-- `SystemCommand` enum. -/
inductive SystemCommand where
  | notify | power_off
deriving DecidableEq, Repr

/-- `InputCommand` enum. -/
inductive InputCommand where
  | up | down | left | right
  | ok | back | exit | home | dash | info
deriving DecidableEq, Repr

/-- `GenericCommand = Union[InputCommand, MediaCommand, AppCommand,
SystemCommand]`. -/
inductive GenericCommand where
  | inp (c : InputCommand)
  | media (c : MediaCommand)
  | app (c : AppCommand)
  | system (c : SystemCommand)
deriving DecidableEq, Repr

/-- `command.name.lower()`, the dynamically resolved method name
(`AutoName` makes each enum value the lower-cased member name). -/
def cmdName : GenericCommand → String
  | GenericCommand.inp c =>
    match c with
    | InputCommand.up => "up" | InputCommand.down => "down"
    | InputCommand.left => "left" | InputCommand.right => "right"
    | InputCommand.ok => "ok" | InputCommand.back => "back"
    | InputCommand.exit => "exit" | InputCommand.home => "home"
    | InputCommand.dash => "dash" | InputCommand.info => "info"
  | GenericCommand.media c =>
    match c with
    | MediaCommand.volume_up => "volume_up" | MediaCommand.volume_down => "volume_down"
    | MediaCommand.get_volume => "get_volume" | MediaCommand.set_volume => "set_volume"
    | MediaCommand.mute => "mute" | MediaCommand.play => "play"
    | MediaCommand.pause => "pause" | MediaCommand.stop => "stop"
    | MediaCommand.rewind => "rewind" | MediaCommand.fast_forward => "fast_forward"
  | GenericCommand.app c =>
    match c with
    | AppCommand.launch => "launch" | AppCommand.list_apps => "list_apps"
    | AppCommand.get_current => "get_current"
  | GenericCommand.system c =>
    match c with
    | SystemCommand.notify => "notify" | SystemCommand.power_off => "power_off"

/-- The four sub-controller objects an `LGTVCommander` holds. -/
inductive ControllerKind where
  | system | media | application | input
deriving DecidableEq, Repr

/-- `isinstance(command, InputCommand)`. -/
def isInputCmd : GenericCommand → Bool
  | GenericCommand.inp _ => true
  | _ => false

/-- The sub-controller `send_command` selects for a command. -/
def categoryOf : GenericCommand → ControllerKind
  | GenericCommand.inp _ => ControllerKind.input
  | GenericCommand.media _ => ControllerKind.media
  | GenericCommand.app _ => ControllerKind.application
  | GenericCommand.system _ => ControllerKind.system

/-- An application descriptor returned by `self._app.list_apps()` (the
dispatch only reads its `title`). -/
structure AppInfo where
  title : String
deriving DecidableEq, Repr

/-- The typed value actually passed to the resolved controller method
after payload coercion. -/
inductive CoercedMessage where
  | str (s : String)
  | int (n : Int)
  | bool (b : Bool)
  | appObj (a : AppInfo)
deriving DecidableEq, Repr

/-- One call made on a sub-controller during dispatch. -/
structure DispatchCall where
  controller : ControllerKind
  method : String
  arg : Option CoercedMessage
deriving DecidableEq, Repr

/-- Errors `LGTVCommander.send_command` can raise while coercing a
payload: no application matched a `launch` payload (the `IndexError`
from `[...][0]` on an empty match list; spec taxonomy
`NoMatchingApplication`), or `int(message)` failed for `set_volume`
(`ValueError`). -/
inductive LGTVError where
  | noMatchingApplication
  | invalidVolume (s : String)
deriving DecidableEq, Repr

/-- All-digit decimal parse (worker for the `int(message)` model). -/
def parseDigits (cs : List Char) : Option Nat :=
  if !cs.isEmpty && cs.all Char.isDigit then
    some (cs.foldl (fun n c => n * 10 + (c.toNat - 48)) 0)
  else none

/-- Python's `int(message)` on a decimal string, modelled for plain
optionally-signed decimal forms. -/
def pyInt (s : String) : Option Int :=
  match s.data with
  | '-' :: rest => (parseDigits rest).map (fun n => -(n : Int))
  | cs => (parseDigits cs).map (fun n => (n : Int))

/-- `[x for x in apps if message in x["title"].lower()][0]`, as an
`Option`: the first application whose lower-cased title contains the
raw payload as a substring.  Note the payload itself is not
lower-cased. -/
def firstMatchingApp (apps : List AppInfo) (m : String) : Option AppInfo :=
  (apps.filter (fun x => strInStr m (lowerStr x.title))).head?

/-- Built from the claim's words, for comparison with
`firstMatchingApp`: a case-insensitive substring match lowers both the
title and the payload. -/
def resolveAppSpec (apps : List AppInfo) (m : String) : Option AppInfo :=
  (apps.filter (fun x => strInStr (lowerStr m) (lowerStr x.title))).head?

/-- The payload-coercion step of `LGTVCommander.send_command` (the
`elif` chain guarded by `message is not None`). -/
def coerceMessage (apps : List AppInfo) (cmd : GenericCommand) (m : String) :
    Except LGTVError CoercedMessage :=
  match cmd with
  | GenericCommand.media MediaCommand.set_volume =>
    match pyInt m with
    | some n => Except.ok (CoercedMessage.int n)
    | none => Except.error (LGTVError.invalidVolume m)
  | GenericCommand.app AppCommand.launch =>
    match firstMatchingApp apps m with
    | some a => Except.ok (CoercedMessage.appObj a)
    | none => Except.error LGTVError.noMatchingApplication
  | GenericCommand.media MediaCommand.mute => Except.ok (CoercedMessage.bool (m == "True"))
  | _ => Except.ok (CoercedMessage.str m)

/-- State of one `LGTVCommander`: the live list of application
descriptors its `self._app.list_apps()` call would return from the
device. -/
structure CommanderState where
  apps : List AppInfo
deriving DecidableEq, Repr

/-- `LGTVCommander.send_command(self, command, message)`: selects the
sub-controller by the command's enum class (with the
connect-for-input / disconnect-for-input window around input
commands), coerces the payload, and invokes the method named
`command.name.lower()` on it.  The result is the sequence of
sub-controller calls made. -/
def LGTVCommander.send_command (c : CommanderState) (cmd : GenericCommand)
    (message : Option String) : Except LGTVError (List DispatchCall) :=
  let pre : List DispatchCall :=
    if isInputCmd cmd then [{ controller := ControllerKind.input, method := "connect_input", arg := none }] else []
  let post : List DispatchCall :=
    if isInputCmd cmd then [{ controller := ControllerKind.input, method := "disconnect_input", arg := none }] else []
  match message with
  | none =>
    Except.ok (pre ++ [{ controller := categoryOf cmd, method := cmdName cmd, arg := none }] ++ post)
  | some m =>
    match coerceMessage c.apps cmd m with
    | Except.error e => Except.error e
    | Except.ok arg =>
      Except.ok (pre ++ [{ controller := categoryOf cmd, method := cmdName cmd, arg := some arg }] ++ post)

/-- A configured LG TV device entry (`cfg['devices'][name]`): its host
address and, once paired, the stored `key`. -/
structure DeviceConf where
  host : String
  key : Option String
deriving DecidableEq, Repr

/-- Per-adapter state of `LGTVAdapter`: the configured `devices`
table, the `_connections` session store and the `_online` list. -/
structure LGTVState where
  devices : List (String × DeviceConf)
  connections : List (String × CommanderState)
  online : List String
deriving DecidableEq, Repr

/-- `LGTVAdapter._disconnect_all(self)`: closes every held session and
clears `_connections` (`close_connection` on the external client has
no failure path modelled; the store is cleared unconditionally). -/
def LGTVAdapter.disconnect_all (st : LGTVState) : LGTVState :=
  { st with connections := [] }

/-- `LGTVAdapter.shutdown(self)`: the body is `self._disconnect_all()`. -/
def LGTVAdapter.shutdown (st : LGTVState) : LGTVState :=
  LGTVAdapter.disconnect_all st

/-- `LGTVAdapter._separate_new_hosts(self, hosts)`: the dict
comprehension `{n: h for h in hosts for n, d in devices.items() if
h == d['host']}` followed by the list comprehension
`[h for h in hosts if h not in existing_hosts.values()]`. -/
def separate_new_hosts (devices : List (String × DeviceConf)) (hosts : List String) :
    List (String × String) × List String :=
  let existing : List (String × String) :=
    hosts.foldl
      (fun acc h =>
        devices.foldl (fun acc2 p => if h = p.2.host then dictInsert acc2 p.1 h else acc2) acc)
      []
  let newHosts : List String :=
    hosts.filter (fun h => !((existing.map Prod.snd).contains h))
  (existing, newHosts)

/-- `LGTVAdapter._update_online_status(self)`: for each configured
device, a successful ping appends its name to `_online`
(unconditionally), a failed ping removes one occurrence if present.
The ping results are supplied by `ping`. -/
def update_online_status (names : List String) (ping : String → Bool)
    (online : List String) : List String :=
  names.foldl
    (fun ol n => if ping n then ol ++ [n] else if ol.contains n then ol.erase n else ol)
    online

/-- The per-device summary returned by `GET /lgtv`. -/
structure DeviceSummary where
  host : String
  paired : Bool
  online : Bool
  connected : Bool
deriving DecidableEq, Repr

/-- The `GET /lgtv` handler `get_devices`: refreshes the online list,
then summarises every configured device.  Returns the response body
and the updated adapter state. -/
def LGTVAdapter.get_devices (st : LGTVState) (ping : String → Bool) :
    List (String × DeviceSummary) × LGTVState :=
  let online2 := update_online_status (st.devices.map Prod.fst) ping st.online
  let st2 : LGTVState := { st with online := online2 }
  (st.devices.map (fun p =>
      (p.1,
       { host := p.2.host
         paired := p.2.key.isSome
         online := online2.contains p.1
         connected := (st.connections.lookup p.1).isSome })),
   st2)

/-- Response body of an LGTV endpoint: either the uniform
`curly-braces message: string` error/status document or the
`response` wrapper around a dispatch result. -/
inductive ResponseBody where
  | message (s : String)
  | commandResponse (calls : List DispatchCall)
deriving DecidableEq, Repr

/-- What a request to an LGTV endpoint observably does: the handler
returns a status code and body, or an exception escapes the handler
into the HTTP framework - either one of the dispatch errors
(`raised`) or any other uncaught Python exception, identified by its
message (`raisedOther`). -/
inductive HandlerOutcome where
  | returned (statusCode : Nat) (body : ResponseBody)
  | raised (e : LGTVError)
  | raisedOther (e : String)
deriving DecidableEq, Repr

/-- The `POST /lgtv/{name}/command` handler `send_command`: a 400
message response when the device has no live session; otherwise the
commander dispatch runs with no surrounding try/except, so a dispatch
error escapes the handler. -/
def send_command (st : LGTVState) (name : String) (cmd : GenericCommand)
    (message : Option String) : HandlerOutcome :=
  match st.connections.lookup name with
  | none =>
    HandlerOutcome.returned 400
      (ResponseBody.message ("Device named " ++ name ++ " has not been connected."))
  | some c =>
    match LGTVCommander.send_command c cmd message with
    | Except.ok calls => HandlerOutcome.returned 200 (ResponseBody.commandResponse calls)
    | Except.error e => HandlerOutcome.raised e

/-- Result of the `LGTVAdapter._device_connect` call made by the
connect handler: a connected commander (with the pairing key the
client holds); an `LGTVException` carrying its message (timeout,
pairing failure, and any exception whose text is exactly
`Failed to register.`); or any other exception, which
`_device_connect`'s final `raise e` re-raises unchanged (for example a
`ConnectionRefusedError` out of `client.connect()`). -/
inductive ConnectOutcome where
  | connected (c : CommanderState) (key : String)
  | lgtvError (msg : String)
  | otherError (e : String)
deriving DecidableEq, Repr

/-- Result of the key-persistence steps the connect handler runs after
a successful `_device_connect`, still inside its `try` block:
`config.get(f"adapters.LGTVAdapter.devices.{name}")`, then
`dev_cfg['key'] = key.decode()` (the fetched sub-dict aliases the
adapter's own device entry), then `config.save()`.  None of these
raise an `LGTVException`, so a failure in any of them is not caught by
the handler: a `ConfigException` from `config.get` (for example a
device name containing a dot) or a `key.decode()` failure raises
before the key is written, an IO failure in `config.save()` raises
after it. -/
inductive PersistOutcome where
  | ok
  | raisedBeforeWrite (e : String)
  | raisedAfterWrite (e : String)
deriving DecidableEq, Repr

/-- The `PUT /lgtv/{name}/connect` handler `connect_device`: 400 when
the name is not configured; otherwise the connect attempt and the
key-persistence steps run inside `try ... except LGTVException`, so an
`LGTVException` is returned as a 400 message response, while any other
exception (the `raise e` passthrough of `_device_connect`, or a
config/decode/save failure) escapes the handler; only when everything
succeeds is the commander stored in `_connections`. -/
def connect_device (st : LGTVState) (name : String) (res : ConnectOutcome)
    (persist : PersistOutcome) : HandlerOutcome × LGTVState :=
  match st.devices.lookup name with
  | none =>
    (HandlerOutcome.returned 400
       (ResponseBody.message ("Device named " ++ name ++ " has not been configured.")),
     st)
  | some d =>
    match res with
    | ConnectOutcome.connected c key =>
      match persist with
      | PersistOutcome.ok =>
        (HandlerOutcome.returned 200 (ResponseBody.message "Connected"),
         { st with
             devices := dictInsert st.devices name { d with key := some key }
             connections := dictInsert st.connections name c })
      | PersistOutcome.raisedBeforeWrite e => (HandlerOutcome.raisedOther e, st)
      | PersistOutcome.raisedAfterWrite e =>
        (HandlerOutcome.raisedOther e,
         { st with devices := dictInsert st.devices name { d with key := some key } })
    | ConnectOutcome.lgtvError msg =>
      (HandlerOutcome.returned 400 (ResponseBody.message msg), st)
    | ConnectOutcome.otherError e => (HandlerOutcome.raisedOther e, st)

/-! ## A concrete probe scenario for the online-status store

One configured TV, probed through three consecutive `GET /lgtv`
requests: ping succeeds, succeeds again, then fails. -/

/-- Initial adapter state of the probe scenario. -/
def probeSt0 : LGTVState :=
  ⟨[("tv", ⟨"192.168.0.2", none⟩)], [], []⟩

/-- State after the first `GET /lgtv` request (ping succeeds). -/
def probeSt1 : LGTVState :=
  (LGTVAdapter.get_devices probeSt0 (fun _ => true)).2

/-- State after the second `GET /lgtv` request (ping succeeds). -/
def probeSt2 : LGTVState :=
  (LGTVAdapter.get_devices probeSt1 (fun _ => true)).2

/-- Response body and state of the third `GET /lgtv` request (ping
fails). -/
def probeRes3 : List (String × DeviceSummary) × LGTVState :=
  LGTVAdapter.get_devices probeSt2 (fun _ => false)

/-! ## Lemmas and claim theorems -/

@[simp] theorem lookup_dictInsert_self {α : Type} (l : List (String × α)) (k : String) (v : α) :
    (dictInsert l k v).lookup k = some v := by
  induction l with
  | nil => simp [dictInsert, List.lookup]
  | cons p rest ih =>
    obtain ⟨k', v'⟩ := p
    by_cases h : k' = k
    · simp [dictInsert, h, List.lookup]
    · simp only [dictInsert, if_neg h, List.lookup]
      have : (k == k') = false := by
        simp [beq_eq_false_iff_ne]
        exact fun hk => h hk.symm
      simp [this, ih]

theorem lookup_dictInsert_ne {α : Type} (l : List (String × α)) (k : String) (v : α)
    (k' : String) (h : k' ≠ k) : (dictInsert l k v).lookup k' = l.lookup k' := by
  induction l with
  | nil =>
    simp [dictInsert, List.lookup, beq_eq_false_iff_ne.mpr h]
  | cons p rest ih =>
    obtain ⟨k₀, v₀⟩ := p
    by_cases hk : k₀ = k
    · subst hk
      simp [dictInsert, List.lookup, beq_eq_false_iff_ne.mpr h]
    · simp only [dictInsert, if_neg hk, List.lookup]
      by_cases hk' : k' = k₀
      · simp [hk', ih]
      · simp [beq_eq_false_iff_ne.mpr hk', ih]

theorem mem_values_dictInsert {α : Type} (l : List (String × α)) (k : String) (v w : α)
    (h : w ∈ (dictInsert l k v).map Prod.snd) : w = v ∨ w ∈ l.map Prod.snd := by
  induction l with
  | nil => simpa [dictInsert] using h
  | cons p rest ih =>
    obtain ⟨k₀, v₀⟩ := p
    by_cases hk : k₀ = k
    · simp only [dictInsert, if_pos hk, List.map_cons, List.mem_cons] at h
      rcases h with h | h
      · exact Or.inl h
      · exact Or.inr (by simp [h])
    · simp only [dictInsert, if_neg hk, List.map_cons, List.mem_cons] at h
      rcases h with h | h
      · exact Or.inr (by simp [h])
      · rcases ih h with h1 | h1
        · exact Or.inl h1
        · exact Or.inr (by simp [h1])


/-- C1: constructing the first instance of each distinct adapter
implementation class succeeds (and leaves every other class's counter
untouched), and a second construction attempt for the same class fails
with the `AlreadyInstantiated` error. -/
theorem adapter_single_instance (st : RegistryState) (cls cfg cfg2 : String)
    (h : instanceCount st cls = 0) :
    (adapter_init st cls cfg).2 = Except.ok ⟨cls, cfg⟩ ∧
    (adapter_init (adapter_init st cls cfg).1 cls cfg2).2 =
      Except.error AdapterError.alreadyInstantiated ∧
    ∀ cls2, cls2 ≠ cls →
      instanceCount (adapter_init st cls cfg).1 cls2 = instanceCount st cls2 := by
  simp only [instanceCount] at h
  refine ⟨?_, ?_, ?_⟩
  · simp [adapter_init, instanceCount, h]
  · simp [adapter_init, instanceCount, h, lookup_dictInsert_self]
  · intro cls2 hne
    simp [adapter_init, instanceCount, h, lookup_dictInsert_ne _ _ _ _ hne]

/-- Witness for `adapter_single_instance` at a fresh registry and the
class `KasaAdapter`. -/
theorem adapter_single_instance_witness :
    (adapter_init ⟨[], []⟩ "KasaAdapter" "cfg").2 = Except.ok ⟨"KasaAdapter", "cfg"⟩ ∧
    (adapter_init (adapter_init ⟨[], []⟩ "KasaAdapter" "cfg").1 "KasaAdapter" "cfg").2 =
      Except.error AdapterError.alreadyInstantiated :=
  ⟨(adapter_single_instance ⟨[], []⟩ "KasaAdapter" "cfg" "cfg" (by decide)).1,
   (adapter_single_instance ⟨[], []⟩ "KasaAdapter" "cfg" "cfg" (by decide)).2.1⟩

/-- C9: when the single-instance guard fires, the duplicate's endpoint
registration has already been appended to the router's log and the
configuration slice stored, so construction is not atomic on error;
the counter itself is left unchanged. -/
theorem adapter_init_not_atomic (st : RegistryState) (cls cfg : String)
    (h : 0 < instanceCount st cls) :
    (adapter_init st cls cfg).2 = Except.error AdapterError.alreadyInstantiated ∧
    (adapter_init st cls cfg).1.endpoints = st.endpoints ++ [cls] ∧
    (adapter_init st cls cfg).1.counts = st.counts := by
  simp only [instanceCount] at h
  refine ⟨?_, ?_, ?_⟩ <;> simp [adapter_init, instanceCount, h]

/-- Witness for `adapter_init_not_atomic`: a registry in which
`KasaAdapter` is already instantiated once. -/
theorem adapter_init_not_atomic_witness :
    (adapter_init ⟨["KasaAdapter"], [("KasaAdapter", 1)]⟩ "KasaAdapter" "cfg").2 =
      Except.error AdapterError.alreadyInstantiated ∧
    (adapter_init ⟨["KasaAdapter"], [("KasaAdapter", 1)]⟩ "KasaAdapter" "cfg").1.endpoints =
      ["KasaAdapter", "KasaAdapter"] :=
  ⟨(adapter_init_not_atomic ⟨["KasaAdapter"], [("KasaAdapter", 1)]⟩ "KasaAdapter" "cfg"
      (by decide)).1,
   (adapter_init_not_atomic ⟨["KasaAdapter"], [("KasaAdapter", 1)]⟩ "KasaAdapter" "cfg"
      (by decide)).2.1⟩

/-- C8: for every adapter class name registered by discovery in this
repository, the instance-table key computed by `create`
(`cls_name.replace("Adapter", "").lower()`) equals the class name with
the `Adapter` suffix stripped and the rest lower-cased, and looking
the key up in the instance table returns the stored instance. -/
theorem adapter_key_normalization :
    ∀ cls ∈ registeredAdapterNames,
      adapter_name cls = lowerStr (stripSuffixSpec cls) ∧
      adapters_get (adapter_name cls) = some cls := by
  decide

/-- Witness for `adapter_key_normalization` at `KasaAdapter`. -/
theorem adapter_key_normalization_witness :
    adapter_name "KasaAdapter" = lowerStr (stripSuffixSpec "KasaAdapter") ∧
    adapters_get (adapter_name "KasaAdapter") = some "KasaAdapter" :=
  adapter_key_normalization "KasaAdapter" (by decide)

/-- C2: `shutdown()` never fails (both adapters' shutdowns are total
functions of the adapter state with no error outcome, so they are
callable before any `startup()`); after the LGTV shutdown the session
store is empty and nothing but the session store is touched, and a
second shutdown is a no-op; the Kasa shutdown is the identity. -/
theorem shutdown_idempotent_and_safe :
    ∀ (st : LGTVState) (ks : KasaState),
      (LGTVAdapter.shutdown st).connections = [] ∧
      LGTVAdapter.shutdown (LGTVAdapter.shutdown st) = LGTVAdapter.shutdown st ∧
      (LGTVAdapter.shutdown st).devices = st.devices ∧
      (LGTVAdapter.shutdown st).online = st.online ∧
      KasaAdapter.shutdown ks = ks ∧
      KasaAdapter.shutdown (KasaAdapter.shutdown ks) = KasaAdapter.shutdown ks :=
  fun _ _ => ⟨rfl, rfl, rfl, rfl, rfl, rfl⟩

/-- C7: dispatching the mute command with a payload coerces the exact
text `True` to boolean true and any other payload text to boolean
false before the media sub-controller's `mute` method is invoked. -/
theorem mute_coercion (c : CommanderState) (m : String) :
    (m = "True" →
      LGTVCommander.send_command c (GenericCommand.media MediaCommand.mute) (some m) =
        Except.ok [{ controller := ControllerKind.media, method := "mute",
                     arg := some (CoercedMessage.bool true) }]) ∧
    (m ≠ "True" →
      LGTVCommander.send_command c (GenericCommand.media MediaCommand.mute) (some m) =
        Except.ok [{ controller := ControllerKind.media, method := "mute",
                     arg := some (CoercedMessage.bool false) }]) := by
  constructor
  · intro h
    simp [LGTVCommander.send_command, coerceMessage, isInputCmd, categoryOf, cmdName, h]
  · intro h
    simp [LGTVCommander.send_command, coerceMessage, isInputCmd, categoryOf, cmdName,
      beq_eq_false_iff_ne.mpr h]

/-- Witness for `mute_coercion` with payloads `True` and `Yes`. -/
theorem mute_coercion_witness :
    LGTVCommander.send_command ⟨[]⟩ (GenericCommand.media MediaCommand.mute) (some "True") =
      Except.ok [{ controller := ControllerKind.media, method := "mute",
                   arg := some (CoercedMessage.bool true) }] ∧
    LGTVCommander.send_command ⟨[]⟩ (GenericCommand.media MediaCommand.mute) (some "Yes") =
      Except.ok [{ controller := ControllerKind.media, method := "mute",
                   arg := some (CoercedMessage.bool false) }] :=
  ⟨(mute_coercion ⟨[]⟩ "True").1 rfl, (mute_coercion ⟨[]⟩ "Yes").2 (by decide)⟩

/-- C4: the colour endpoint parses `10,20,30` to hue 10, saturation
20, value 30 and forwards them to the device, and the router's strict
pattern rejects malformed specs before any device call; but the
declared component bounds (hue 0-360, saturation and value 0-100) from
the parameter's own description are never enforced: `400,50,50`
matches the 1-to-3-digit pattern and is forwarded to `set_hsv`
unchecked. -/
theorem colour_endpoint_unchecked_bounds :
    set_bulb_colour [("bulb", ⟨true, true, true⟩)] "bulb" "10,20,30" =
      ColourOutcome.hsvSet 10 20 30 ∧
    set_bulb_colour [("bulb", ⟨true, true, true⟩)] "bulb" "10,20" =
      ColourOutcome.routerRejected ∧
    set_bulb_colour [("bulb", ⟨true, true, true⟩)] "bulb" "1000,20,30" =
      ColourOutcome.routerRejected ∧
    set_bulb_colour [("bulb", ⟨true, true, true⟩)] "bulb" "400,50,50" =
      ColourOutcome.hsvSet 400 50 50 := by
  decide

/-- C3 (amended): the errors the LGTV handlers explicitly detect are
converted to 400 responses with a message body (`send_command` for an
unconnected device; `connect_device` for an unconfigured device and
for an `LGTVException` raised by the connect attempt) - but errors
are not caught at the handler boundary in general: an error raised
inside the TV command dispatch is not caught in `send_command` and
escapes the handler, and a non-`LGTVException` inside
`connect_device`'s try block (the `raise e` passthrough of
`_device_connect`, or a failure of the `config.get` / `key.decode` /
`config.save` persistence steps) likewise escapes. -/
theorem handler_error_policy (st : LGTVState) (name : String) (cmd : GenericCommand)
    (msg : Option String) (c : CommanderState) (e : LGTVError) (d : DeviceConf)
    (emsg : String) (cs : CommanderState) (key : String) (persist : PersistOutcome) :
    (st.connections.lookup name = none →
      send_command st name cmd msg =
        HandlerOutcome.returned 400
          (ResponseBody.message ("Device named " ++ name ++ " has not been connected."))) ∧
    (st.connections.lookup name = some c →
      LGTVCommander.send_command c cmd msg = Except.error e →
      send_command st name cmd msg = HandlerOutcome.raised e) ∧
    (st.devices.lookup name = some d →
      (connect_device st name (ConnectOutcome.lgtvError emsg) persist).1 =
        HandlerOutcome.returned 400 (ResponseBody.message emsg)) ∧
    (st.devices.lookup name = some d →
      (connect_device st name (ConnectOutcome.otherError emsg) persist).1 =
        HandlerOutcome.raisedOther emsg) ∧
    (st.devices.lookup name = some d →
      (connect_device st name (ConnectOutcome.connected cs key)
          (PersistOutcome.raisedBeforeWrite emsg)).1 = HandlerOutcome.raisedOther emsg) := by
  refine ⟨?_, ?_, ?_, ?_, ?_⟩
  · intro h
    simp [send_command, h]
  · intro h1 h2
    simp [send_command, h1, h2]
  · intro h
    simp [connect_device, h]
  · intro h
    simp [connect_device, h]
  · intro h
    simp [connect_device, h]

/-- Witness for `handler_error_policy`: a 400 message for an
unconnected device, a dispatch failure escaping `send_command`, a
caught `LGTVException` returned as a 400 message by `connect_device`,
and a re-raised generic connection error escaping `connect_device`. -/
theorem handler_error_policy_witness :
    send_command ⟨[], [], []⟩ "tv" (GenericCommand.media MediaCommand.play) none =
      HandlerOutcome.returned 400
        (ResponseBody.message ("Device named " ++ "tv" ++ " has not been connected.")) ∧
    send_command ⟨[], [("tv2", ⟨[]⟩)], []⟩ "tv2" (GenericCommand.app AppCommand.launch)
        (some "x") = HandlerOutcome.raised LGTVError.noMatchingApplication ∧
    (connect_device ⟨[("tv3", ⟨"10.0.0.7", none⟩)], [], []⟩ "tv3"
        (ConnectOutcome.lgtvError "Timed out connecting to LGTV tv3.") PersistOutcome.ok).1 =
      HandlerOutcome.returned 400
        (ResponseBody.message "Timed out connecting to LGTV tv3.") ∧
    (connect_device ⟨[("tv3", ⟨"10.0.0.7", none⟩)], [], []⟩ "tv3"
        (ConnectOutcome.otherError "ConnectionRefusedError") PersistOutcome.ok).1 =
      HandlerOutcome.raisedOther "ConnectionRefusedError" :=
  ⟨(handler_error_policy ⟨[], [], []⟩ "tv" (GenericCommand.media MediaCommand.play) none ⟨[]⟩
      LGTVError.noMatchingApplication ⟨"10.0.0.7", none⟩ "m" ⟨[]⟩ "k" PersistOutcome.ok).1 rfl,
   (handler_error_policy ⟨[], [("tv2", ⟨[]⟩)], []⟩ "tv2" (GenericCommand.app AppCommand.launch)
      (some "x") ⟨[]⟩ LGTVError.noMatchingApplication ⟨"10.0.0.7", none⟩ "m" ⟨[]⟩ "k"
      PersistOutcome.ok).2.1 rfl (by decide),
   (handler_error_policy ⟨[("tv3", ⟨"10.0.0.7", none⟩)], [], []⟩ "tv3"
      (GenericCommand.media MediaCommand.play) none ⟨[]⟩ LGTVError.noMatchingApplication
      ⟨"10.0.0.7", none⟩ "Timed out connecting to LGTV tv3." ⟨[]⟩ "k"
      PersistOutcome.ok).2.2.1 rfl,
   (handler_error_policy ⟨[("tv3", ⟨"10.0.0.7", none⟩)], [], []⟩ "tv3"
      (GenericCommand.media MediaCommand.play) none ⟨[]⟩ LGTVError.noMatchingApplication
      ⟨"10.0.0.7", none⟩ "ConnectionRefusedError" ⟨[]⟩ "k"
      PersistOutcome.ok).2.2.2.1 rfl⟩

/-- C3 counterexample: a failure raised inside the TV command dispatch
(launching an application when the device's app list has no match) is
not converted to a structured response at the handler boundary - the
handler outcome is a propagating exception, not a message body. -/
theorem handler_error_escapes :
    send_command ⟨[("tv", ⟨"10.0.0.5", some "k"⟩)], [("tv", ⟨[]⟩)], []⟩ "tv"
        (GenericCommand.app AppCommand.launch) (some "netflix") =
      HandlerOutcome.raised LGTVError.noMatchingApplication := by
  decide

/-- C5 (amended): an application-launch dispatch resolves the free-text
payload against the live application list, selecting the first
application whose lower-cased title contains the payload verbatim as a
substring (the payload itself is not case-folded), and fails with the
no-matching-application error when no title matches. -/
theorem launch_resolves_verbatim_payload (apps : List AppInfo) (m : String) :
    ((∃ a ∈ apps, strInStr m (lowerStr a.title) = true) →
      ∃ a, firstMatchingApp apps m = some a ∧ a ∈ apps ∧
        strInStr m (lowerStr a.title) = true ∧
        LGTVCommander.send_command ⟨apps⟩ (GenericCommand.app AppCommand.launch) (some m) =
          Except.ok [{ controller := ControllerKind.application, method := "launch",
                       arg := some (CoercedMessage.appObj a) }]) ∧
    ((∀ a ∈ apps, strInStr m (lowerStr a.title) = false) →
      LGTVCommander.send_command ⟨apps⟩ (GenericCommand.app AppCommand.launch) (some m) =
        Except.error LGTVError.noMatchingApplication) := by
  constructor
  · intro hex
    cases hf : apps.filter (fun x => strInStr m (lowerStr x.title)) with
    | nil =>
      exfalso
      obtain ⟨a, ha, hp⟩ := hex
      have := List.filter_eq_nil_iff.mp hf a ha
      simp [hp] at this
    | cons a t =>
      have hmem : a ∈ apps.filter (fun x => strInStr m (lowerStr x.title)) := by
        rw [hf]; exact List.mem_cons_self a t
      have hmem2 := List.mem_filter.mp hmem
      refine ⟨a, ?_, hmem2.1, hmem2.2, ?_⟩
      · simp [firstMatchingApp, hf]
      · simp [LGTVCommander.send_command, coerceMessage, isInputCmd, categoryOf, cmdName,
          firstMatchingApp, hf]
  · intro hall
    have hf : apps.filter (fun x => strInStr m (lowerStr x.title)) = [] := by
      apply List.filter_eq_nil_iff.mpr
      intro a ha
      simp [hall a ha]
    simp [LGTVCommander.send_command, coerceMessage, isInputCmd, firstMatchingApp, hf]

/-- Witness for `launch_resolves_verbatim_payload`: the lower-case
payload `netflix` selects the single matching app, and a payload with
no matching title fails. -/
theorem launch_resolves_verbatim_payload_witness :
    (∃ a, firstMatchingApp [⟨"Netflix"⟩] "netflix" = some a ∧
       a ∈ ([⟨"Netflix"⟩] : List AppInfo) ∧
       strInStr "netflix" (lowerStr a.title) = true ∧
       LGTVCommander.send_command ⟨[⟨"Netflix"⟩]⟩ (GenericCommand.app AppCommand.launch)
         (some "netflix") =
         Except.ok [{ controller := ControllerKind.application, method := "launch",
                      arg := some (CoercedMessage.appObj a) }]) ∧
    LGTVCommander.send_command ⟨[⟨"Games"⟩]⟩ (GenericCommand.app AppCommand.launch)
        (some "zzz") = Except.error LGTVError.noMatchingApplication :=
  ⟨(launch_resolves_verbatim_payload [⟨"Netflix"⟩] "netflix").1
     ⟨⟨"Netflix"⟩, by decide, by decide⟩,
   (launch_resolves_verbatim_payload [⟨"Games"⟩] "zzz").2 (by decide)⟩

/-- C5 counterexample: the match is not case-insensitive.  With the
single device app titled `Netflix` and the payload `Netflix`, a
case-insensitive substring match succeeds (the spec-worded resolver
returns the app), but the dispatch compares the raw payload against
the lower-cased title and fails. -/
theorem launch_not_case_insensitive :
    LGTVCommander.send_command ⟨[⟨"Netflix"⟩]⟩ (GenericCommand.app AppCommand.launch)
        (some "Netflix") = Except.error LGTVError.noMatchingApplication ∧
    resolveAppSpec [⟨"Netflix"⟩] "Netflix" = some ⟨"Netflix"⟩ := by
  decide

/-- C10: the online list gains a duplicate entry on every repeated
successful probe, and a failed probe removes only one occurrence, so
after the probe sequence success, success, failure the device listing
still reports the device as online. -/
theorem online_status_overcounts :
    probeSt2.online = ["tv", "tv"] ∧
    probeRes3.2.online = ["tv"] ∧
    (probeRes3.1.lookup "tv").map DeviceSummary.online = some true := by
  decide

/-- With duplicate-free keys (a Python dict), a key determines its
device entry. -/
theorem nodup_key_unique (devices : List (String × DeviceConf))
    (hnd : (devices.map Prod.fst).Nodup) {n : String} {c c2 : DeviceConf}
    (h1 : (n, c) ∈ devices) (h2 : (n, c2) ∈ devices) : c = c2 := by
  induction devices with
  | nil => cases h1
  | cons p rest ih =>
    obtain ⟨m, d⟩ := p
    rw [List.map_cons, List.nodup_cons] at hnd
    rcases List.mem_cons.mp h1 with he1 | ht1
    · rcases List.mem_cons.mp h2 with he2 | ht2
      · rw [(Prod.mk.injEq _ _ _ _).mp he1 |>.2, (Prod.mk.injEq _ _ _ _).mp he2 |>.2]
      · exfalso
        apply hnd.1
        have hn : n = m := ((Prod.mk.injEq _ _ _ _).mp he1).1
        exact hn ▸ List.mem_map.mpr ⟨(n, c2), ht2, rfl⟩
    · rcases List.mem_cons.mp h2 with he2 | ht2
      · exfalso
        apply hnd.1
        have hn : n = m := ((Prod.mk.injEq _ _ _ _).mp he2).1
        exact hn ▸ List.mem_map.mpr ⟨(n, c), ht1, rfl⟩
      · exact ih hnd.2 ht1 ht2

/-- Inner fold of the discovery dict comprehension, positive case:
when some device pair with key `n` matches host `h`, the fold binds
`n` to `h`. -/
theorem sep_inner_pos (devices : List (String × DeviceConf)) (h n : String)
    (hex : ∃ p ∈ devices, p.1 = n ∧ p.2.host = h) :
    ∀ acc : List (String × String),
      ((devices.foldl
          (fun acc2 p => if h = p.2.host then dictInsert acc2 p.1 h else acc2) acc).lookup n)
        = some h := by
  induction devices with
  | nil => simp at hex
  | cons p rest ih =>
    intro acc
    obtain ⟨m, d⟩ := p
    simp only [List.foldl_cons]
    by_cases hrest : ∃ q ∈ rest, q.1 = n ∧ q.2.host = h
    · exact ih hrest _
    · have hhead : m = n ∧ d.host = h := by
        rcases hex with ⟨q, hq, hqp⟩
        rcases List.mem_cons.mp hq with he | ht
        · rw [he] at hqp; exact hqp
        · exact absurd ⟨q, ht, hqp⟩ hrest
      have hcond : h = d.host := hhead.2.symm
      rw [if_pos hcond, hhead.1]
      have hpres : ∀ acc2 : List (String × String), acc2.lookup n = some h →
          ((rest.foldl
              (fun a2 p2 => if h = p2.2.host then dictInsert a2 p2.1 h else a2) acc2).lookup n)
            = some h := by
        clear ih hex
        induction rest with
        | nil => intro acc2 hacc; simpa using hacc
        | cons q rs ihr =>
          intro acc2 hacc
          simp only [List.mem_cons] at hrest
          have hq : ¬(q.1 = n ∧ q.2.host = h) := fun hc => hrest ⟨q, Or.inl rfl, hc⟩
          have hrs : ¬∃ r ∈ rs, r.1 = n ∧ r.2.host = h := by
            intro ⟨r, hr, hrp⟩
            exact hrest ⟨r, Or.inr hr, hrp⟩
          simp only [List.foldl_cons]
          apply ihr hrs
          by_cases hcond2 : h = q.2.host
          · rw [if_pos hcond2]
            have hne : n ≠ q.1 := fun he => hq ⟨he.symm, hcond2.symm⟩
            rw [lookup_dictInsert_ne _ _ _ _ hne]
            exact hacc
          · rw [if_neg hcond2]
            exact hacc
      exact hpres _ (lookup_dictInsert_self acc n h)

/-- Inner fold of the discovery dict comprehension, negative case:
when no device pair with key `n` matches host `h`, the binding of `n`
is untouched. -/
theorem sep_inner_neg (devices : List (String × DeviceConf)) (h n : String)
    (hnone : ∀ p ∈ devices, ¬(p.1 = n ∧ p.2.host = h)) :
    ∀ acc : List (String × String),
      ((devices.foldl
          (fun acc2 p => if h = p.2.host then dictInsert acc2 p.1 h else acc2) acc).lookup n)
        = acc.lookup n := by
  induction devices with
  | nil => intro acc; simp
  | cons p rest ih =>
    intro acc
    simp only [List.foldl_cons]
    have hrest : ∀ q ∈ rest, ¬(q.1 = n ∧ q.2.host = h) :=
      fun q hq => hnone q (List.mem_cons.mpr (Or.inr hq))
    rw [ih hrest]
    by_cases hcond : h = p.2.host
    · rw [if_pos hcond]
      have hne : n ≠ p.1 := by
        intro he
        exact hnone p (List.mem_cons.mpr (Or.inl rfl)) ⟨he.symm, hcond.symm⟩
      rw [lookup_dictInsert_ne _ _ _ _ hne]
    · rw [if_neg hcond]

/-- Outer fold over the host list: hosts that no device with key `n`
is configured at leave the binding of `n` untouched. -/
theorem sep_outer_preserve (devices : List (String × DeviceConf)) (n : String)
    (hosts : List String)
    (hnone : ∀ h ∈ hosts, ∀ p ∈ devices, p.1 = n → p.2.host ≠ h) :
    ∀ acc : List (String × String),
      ((hosts.foldl
          (fun acc h =>
            devices.foldl
              (fun acc2 p => if h = p.2.host then dictInsert acc2 p.1 h else acc2) acc)
          acc).lookup n)
        = acc.lookup n := by
  induction hosts with
  | nil => intro acc; simp
  | cons h rest ih =>
    intro acc
    simp only [List.foldl_cons]
    have hrest : ∀ h2 ∈ rest, ∀ p ∈ devices, p.1 = n → p.2.host ≠ h2 :=
      fun h2 hh2 => hnone h2 (List.mem_cons.mpr (Or.inr hh2))
    rw [ih hrest]
    apply sep_inner_neg
    intro p hp hc
    exact hnone h (List.mem_cons.mpr (Or.inl rfl)) p hp hc.1 hc.2

/-- Outer fold over the host list, positive case: with duplicate-free
device keys, a configured device whose host was discovered ends up
bound to that host. -/
theorem sep_outer_pos (devices : List (String × DeviceConf))
    (hnd : (devices.map Prod.fst).Nodup) {n : String} {c : DeviceConf}
    (hmem : (n, c) ∈ devices) (hosts : List String) (hin : c.host ∈ hosts) :
    ∀ acc : List (String × String),
      ((hosts.foldl
          (fun acc h =>
            devices.foldl
              (fun acc2 p => if h = p.2.host then dictInsert acc2 p.1 h else acc2) acc)
          acc).lookup n)
        = some c.host := by
  induction hosts with
  | nil => cases hin
  | cons h rest ih =>
    intro acc
    simp only [List.foldl_cons]
    by_cases hr : c.host ∈ rest
    · exact ih hr _
    · have hh : h = c.host := by
        rcases List.mem_cons.mp hin with he | ht
        · exact he.symm
        · exact absurd ht hr
      have hstep :
          ((devices.foldl
              (fun acc2 p => if h = p.2.host then dictInsert acc2 p.1 h else acc2) acc).lookup n)
            = some h :=
        sep_inner_pos devices h n ⟨(n, c), hmem, rfl, hh.symm⟩ acc
      have hpres : ∀ h2 ∈ rest, ∀ p ∈ devices, p.1 = n → p.2.host ≠ h2 := by
        intro h2 hh2 p hp hpn
        have hpc : p = (n, c) := by
          obtain ⟨pn, pc⟩ := p
          cases hpn
          rw [nodup_key_unique devices hnd hp hmem]
        rw [hpc]
        intro hch
        exact hr (hch ▸ hh2)
      rw [sep_outer_preserve devices n rest hpres _, hstep, hh]

/-- Every value stored by the inner fold of the discovery dict
comprehension is some configured device's host. -/
theorem sep_values_inner (devices : List (String × DeviceConf)) (h : String) :
    ∀ (acc : List (String × String)) (w : String),
      w ∈ ((devices.foldl
              (fun acc2 p => if h = p.2.host then dictInsert acc2 p.1 h else acc2) acc).map
            Prod.snd) →
      w ∈ acc.map Prod.snd ∨ ∃ p ∈ devices, w = p.2.host := by
  induction devices with
  | nil =>
    intro acc w hw
    exact Or.inl hw
  | cons p rest ih =>
    intro acc w hw
    simp only [List.foldl_cons] at hw
    rcases ih _ w hw with hacc | ⟨q, hq, hqw⟩
    · by_cases hcond : h = p.2.host
      · rw [if_pos hcond] at hacc
        rcases mem_values_dictInsert _ _ _ _ hacc with he | hm
        · exact Or.inr ⟨p, List.mem_cons.mpr (Or.inl rfl), he.trans hcond⟩
        · exact Or.inl hm
      · rw [if_neg hcond] at hacc
        exact Or.inl hacc
    · exact Or.inr ⟨q, List.mem_cons.mpr (Or.inr hq), hqw⟩

/-- Every value in the `existing` table built by discovery is some
configured device's host. -/
theorem sep_values (devices : List (String × DeviceConf)) (hosts : List String) :
    ∀ (acc : List (String × String)) (w : String),
      w ∈ ((hosts.foldl
              (fun acc h =>
                devices.foldl
                  (fun acc2 p => if h = p.2.host then dictInsert acc2 p.1 h else acc2) acc)
              acc).map Prod.snd) →
      w ∈ acc.map Prod.snd ∨ ∃ p ∈ devices, w = p.2.host := by
  induction hosts with
  | nil =>
    intro acc w hw
    exact Or.inl hw
  | cons h rest ih =>
    intro acc w hw
    simp only [List.foldl_cons] at hw
    rcases ih _ w hw with hacc | hex
    · exact sep_values_inner devices h acc w hacc
    · exact Or.inr hex

/-- C6: `_separate_new_hosts` partitions the discovered host list:
every host equal to some configured device's address is bound in the
`existing` table under that device's name, every host matching no
configured device appears in the `new` list, and no host appears both
as an `existing` value and in `new`. -/
theorem separate_hosts_partition (devices : List (String × DeviceConf)) (hosts : List String)
    (hnd : (devices.map Prod.fst).Nodup) :
    (∀ h ∈ hosts, ∀ p ∈ devices, h = p.2.host →
      (separate_new_hosts devices hosts).1.lookup p.1 = some h) ∧
    (∀ h ∈ hosts, (∀ p ∈ devices, h ≠ p.2.host) →
      h ∈ (separate_new_hosts devices hosts).2) ∧
    (∀ h, ¬(h ∈ (separate_new_hosts devices hosts).1.map Prod.snd ∧
            h ∈ (separate_new_hosts devices hosts).2)) := by
  refine ⟨?_, ?_, ?_⟩
  · intro h hh p hp heq
    have hlook := sep_outer_pos devices hnd
      (show (p.1, p.2) ∈ devices from hp) hosts (heq ▸ hh) []
    simp only [separate_new_hosts]
    rw [hlook, heq]
  · intro h hh hnomatch
    have hnv : h ∉
        ((hosts.foldl
            (fun acc h =>
              devices.foldl
                (fun acc2 p => if h = p.2.host then dictInsert acc2 p.1 h else acc2) acc)
            ([] : List (String × String))).map Prod.snd) := by
      intro hv
      rcases sep_values devices hosts [] h hv with hacc | ⟨p, hp, hph⟩
      · simp at hacc
      · exact hnomatch p hp hph
    simp only [separate_new_hosts]
    exact List.mem_filter.mpr ⟨hh, by simpa using hnv⟩
  · intro h hc
    obtain ⟨hv, hnew⟩ := hc
    simp only [separate_new_hosts] at hv hnew
    have hmf := (List.mem_filter.mp hnew).2
    simp at hmf hv
    obtain ⟨a, ha⟩ := hv
    exact hmf a ha

/-- Witness for `separate_hosts_partition`: one configured TV at
`10.0.0.2`; discovery returns that host plus the unknown `10.0.0.9`. -/
theorem separate_hosts_partition_witness :
    (separate_new_hosts [("tv", ⟨"10.0.0.2", none⟩)] ["10.0.0.2", "10.0.0.9"]).1.lookup "tv" =
      some "10.0.0.2" ∧
    "10.0.0.9" ∈ (separate_new_hosts [("tv", ⟨"10.0.0.2", none⟩)] ["10.0.0.2", "10.0.0.9"]).2 := by
  have hthm := separate_hosts_partition [("tv", ⟨"10.0.0.2", none⟩)]
    ["10.0.0.2", "10.0.0.9"] (by decide)
  exact ⟨hthm.1 "10.0.0.2" (by decide) ("tv", ⟨"10.0.0.2", none⟩) (by decide) rfl,
         hthm.2.1 "10.0.0.9" (by decide) (by decide)⟩
